import Mathlib

/-!
Verification of the ConvoEase moderation pipeline (shallow embedding).

The definitions below embed the Python source of the repository:
  * `Multimodel` namespace: "v1.2 Multimodel Testing/Multimodel_Prototype.py"
    (MultimodalContentValidator, MultimodalChatManager,
    ConvoEaseMultimodalApp.process_media_content, session-stats block).
  * `Basic` namespace: "v1.1 Basic Prototype/prototype_buildup.py"
    (ContentValidator, ChatManager, session-stats block of ConvoEaseApp.run).
  * `TextUI` namespace: "v1.6 Basic UI Text only/core_processing_engine.py"
    (validate_message over the streamed one-word judge protocol).

External effects are embedded as explicit parameters:
  * presence of a Groq client (`hasClient : Bool` — `self.client is not None`);
  * the outcome of the judge call, as a `JudgeOutcome`: the call raised
    (`callError`), `json.loads` raised `JSONDecodeError` (`parseError`), or a
    JSON object was obtained (`ok`), whose three relevant keys are embedded as
    `Option` fields so that Python's `dict.get(key, default)` is `Option.getD`;
  * the outcome of the captioning / transcription call (`MediaOutcome`);
  * wall-clock time (`datetime.now()`) as a `now : Nat` argument.

Floats 0.0 / 0.5 / 1.0 are embedded as exact rationals.
-/

set_option linter.unusedVariables false

namespace ConvoEase

/-- Python `str.strip()`: drops leading and trailing whitespace. Embedded
structurally over the character list so that it evaluates in the kernel. -/
def strip (s : String) : String :=
  ⟨((s.data.dropWhile Char.isWhitespace).reverse.dropWhile Char.isWhitespace).reverse⟩

/-- Python `str.upper()`: upper-cases every character. -/
def upper (s : String) : String :=
  ⟨s.data.map Char.toUpper⟩

/-- `MessageType` enum of the multimodal prototype. -/
inductive MessageType where
  | text
  | image
  | audio
deriving DecidableEq, Repr

/-- `MessageStatus` enum of the multimodal prototype. -/
inductive MessageStatus where
  | valid
  | invalid
  | pending
  | processing
deriving DecidableEq, Repr

/-- `ValidationResult` dataclass (v1.2; the v1.1 dataclass is identical except
that it lacks the `processed_content` field, which is never set by either
validator and defaults to `None`). -/
structure ValidationResult where
  is_valid : Bool
  reason : String
  confidence : ℚ := 1
  processed_content : Option String := none
deriving DecidableEq, Repr

/-- The three keys the validators read from the judge's JSON object, each
`none` when the key is absent from the object. -/
structure JudgeJson where
  valid : Option Bool := none
  reason : Option String := none
  confidence : Option ℚ := none
deriving DecidableEq, Repr

/-- Outcome of the judge call made inside the validators' `try` block:
the chat-completion call raised (`callError e`, caught by `except Exception`),
the response body was not JSON (`parseError`, caught by
`except json.JSONDecodeError`), or a JSON object was decoded (`ok r`). -/
inductive JudgeOutcome where
  | ok (r : JudgeJson)
  | parseError
  | callError (e : String)
deriving DecidableEq, Repr

/-- Outcome of an external captioning/transcription call: the returned text,
or the exception message when the call raised. -/
inductive MediaOutcome where
  | ok (text : String)
  | err (e : String)
deriving DecidableEq, Repr

namespace Multimodel

/-- `MultimodalContentValidator.validate_text_content(content, rules, content_type)`.
`hasClient` is `self.client is not None`; `judge` is the outcome of the Groq
call + `json.loads` performed in the `try` block (only reached when a client
exists and the rules are non-blank). -/
def validate_text_content (hasClient : Bool) (judge : JudgeOutcome)
    (content rules content_type : String) : ValidationResult :=
  if !hasClient then
    { is_valid := true
      reason := "No API key configured - defaulting to allow"
      confidence := 0 }
  else if strip rules = "" then
    { is_valid := true
      reason := "No rules specified - all content allowed"
      confidence := 1 }
  else
    match judge with
    | .ok r =>
        { is_valid := r.valid.getD true
          reason := r.reason.getD "No reason provided"
          confidence := r.confidence.getD (1/2) }
    | .parseError =>
        { is_valid := true
          reason := "Failed to parse validation response"
          confidence := 0 }
    | .callError e =>
        { is_valid := true
          reason := "Validation error: " ++ e
          confidence := 0 }

/-- `MultimodalContentValidator.process_image`: caption on success, and on any
exception the error text `"Failed to process image: <detail>"` is returned,
not raised. -/
def process_image (hasClient : Bool) (outcome : MediaOutcome) : String :=
  if !hasClient then "Image uploaded (API not configured)"
  else
    match outcome with
    | .ok text => strip text
    | .err e => "Failed to process image: " ++ e

/-- `MultimodalContentValidator.process_audio`: stripped transcript on
success, the sentinel `"No speech detected in audio"` when the stripped
transcript is empty, and on any exception the error text
`"Failed to process audio: <detail>"`, not raised. -/
def process_audio (hasClient : Bool) (outcome : MediaOutcome) : String :=
  if !hasClient then "Audio uploaded (API not configured)"
  else
    match outcome with
    | .ok text =>
        let transcript := strip text
        if transcript = "" then "No speech detected in audio" else transcript
    | .err e => "Failed to process audio: " ++ e

/-- `ConvoEaseMultimodalApp.process_media_content(file, media_type, rules)`,
returning the `(is_valid, content)` part of its `(bool, str, MediaContent)`
triple. `sizeOk` is the result of `check_file_size`; `media` is the outcome
of the captioning/transcription call; `judge` the outcome of the judge call
inside `validate_text_content`. -/
def process_media_content (sizeOk hasClient : Bool) (media_type : MessageType)
    (media : MediaOutcome) (judge : JudgeOutcome) (rules : String) :
    Bool × String :=
  if !sizeOk then (false, "File size exceeds limit")
  else
    match media_type with
    | .image =>
        let processed_content := process_image hasClient media
        let validation_result :=
          validate_text_content hasClient judge processed_content rules "image caption"
        (validation_result.is_valid, processed_content)
    | .audio =>
        let processed_content := process_audio hasClient media
        let validation_result :=
          validate_text_content hasClient judge processed_content rules "audio transcript"
        (validation_result.is_valid, processed_content)
    | .text => (false, "Unsupported media type")

end Multimodel

namespace Basic

/-- `ContentValidator.validate_message(message, rules)` of the v1.1
prototype; identical control flow to the multimodal validator, with the
v1.1 reason string in the empty-rules branch. -/
def validate_message (hasClient : Bool) (judge : JudgeOutcome)
    (message rules : String) : ValidationResult :=
  if !hasClient then
    { is_valid := true
      reason := "No API key configured - defaulting to allow"
      confidence := 0 }
  else if strip rules = "" then
    { is_valid := true
      reason := "No rules specified - all messages allowed"
      confidence := 1 }
  else
    match judge with
    | .ok r =>
        { is_valid := r.valid.getD true
          reason := r.reason.getD "No reason provided"
          confidence := r.confidence.getD (1/2) }
    | .parseError =>
        { is_valid := true
          reason := "Failed to parse validation response"
          confidence := 0 }
    | .callError e =>
        { is_valid := true
          reason := "Validation error: " ++ e
          confidence := 0 }

end Basic

namespace TextUI

/-- `"".join(response_chunks).strip().upper()` over the streamed chunks of
the v1.6 judge response. -/
def full_response (response_chunks : List String) : String :=
  upper (strip (String.join response_chunks))

/-- `validate_message` of "v1.6 Basic UI Text only/core_processing_engine.py":
the user message passes through only when the judge's whole response,
stripped and upper-cased, is exactly `"VALID"`; every other response yields
the replacement string `"Invalid Message"`. Exceptions raised by the
streamed call are not caught in this version. -/
def validate_message (response_chunks : List String) (user_message : String) :
    String :=
  if full_response response_chunks = "VALID" then user_message
  else "Invalid Message"

end TextUI

namespace Multimodel

/-- `MediaContent` dataclass; `file_data` bytes are embedded as `List Nat`
and the payload is otherwise opaque to the claims. -/
structure MediaContent where
  file_type : String
  file_name : String
  file_size : Nat
  processed_content : Option String := none
  file_data : Option (List Nat) := none
deriving DecidableEq, Repr

/-- `Message` dataclass of the multimodal prototype; the `datetime`
timestamp is embedded as a `Nat` tick supplied by the caller. -/
structure Message where
  id : String
  sender : String
  content : String
  timestamp : Nat
  status : MessageStatus
  message_type : MessageType
  media_content : Option MediaContent := none
  reason : Option String := none
  confidence : ℚ := 1
deriving DecidableEq, Repr

/-- The mutable state of `MultimodalChatManager`: the `messages`
(delivered) list, the `flagged_messages` list, and `message_counter`. -/
structure ChatState where
  messages : List Message
  flagged_messages : List Message
  message_counter : Nat
deriving DecidableEq, Repr

/-- `MultimodalChatManager.__init__`. -/
def ChatState.init : ChatState :=
  { messages := [], flagged_messages := [], message_counter := 0 }

/-- `MultimodalChatManager.add_message`: increments the counter, builds the
`Message` with status `VALID`/`INVALID` per the validation result, appends it
to `messages` when `is_valid` and to `flagged_messages` otherwise, and
returns it. The embedding returns the message together with the updated
state. -/
def add_message (s : ChatState) (sender content : String)
    (message_type : MessageType) (validation_result : ValidationResult)
    (media_content : Option MediaContent) (now : Nat) : Message × ChatState :=
  let message_counter := s.message_counter + 1
  let message : Message :=
    { id := "msg_" ++ toString message_counter
      sender := sender
      content := content
      timestamp := now
      status := if validation_result.is_valid then MessageStatus.valid
                else MessageStatus.invalid
      message_type := message_type
      media_content := media_content
      reason := some validation_result.reason
      confidence := validation_result.confidence }
  if validation_result.is_valid then
    (message, { s with messages := s.messages ++ [message]
                       message_counter := message_counter })
  else
    (message, { s with flagged_messages := s.flagged_messages ++ [message]
                       message_counter := message_counter })

/-- `MultimodalChatManager.clear_chat`: reassigns `messages`,
`flagged_messages` and `message_counter` in one operation. -/
def clear_chat (s : ChatState) : ChatState :=
  { messages := [], flagged_messages := [], message_counter := 0 }

/-- One submission as fed to `add_message` by the app. -/
structure Submission where
  sender : String
  content : String
  message_type : MessageType
  validation_result : ValidationResult
  media_content : Option MediaContent := none
  now : Nat := 0
deriving DecidableEq, Repr

/-- Folding a sequence of submissions through `add_message`. -/
def runSubs (s : ChatState) : List Submission → ChatState
  | [] => s
  | sub :: rest =>
      runSubs (add_message s sub.sender sub.content sub.message_type
        sub.validation_result sub.media_content sub.now).2 rest

/-- The session-stats block of `ConvoEaseMultimodalApp.run` (v1.2, lines
745–768): counts the delivered messages per type, and computes
`approval_rate = ((text_count + image_count + audio_count) / total_count) * 100`
only inside `if total_count > 0`; no rate value exists for an empty ledger. -/
def approval_rate (s : ChatState) : Option ℚ :=
  let text_count := (s.messages.filter (fun m => m.message_type = MessageType.text)).length
  let image_count := (s.messages.filter (fun m => m.message_type = MessageType.image)).length
  let audio_count := (s.messages.filter (fun m => m.message_type = MessageType.audio)).length
  let flagged_count := s.flagged_messages.length
  let total_count := text_count + image_count + audio_count + flagged_count
  if total_count > 0 then
    some ((((text_count + image_count + audio_count : ℕ) : ℚ) / (total_count : ℚ)) * 100)
  else
    none

end Multimodel

namespace Basic

/-- The session-stats block of `ConvoEaseApp.run` (v1.1, lines 438–451):
`approval_rate = (valid_count / total_count) * 100`, computed and displayed
only inside `if total_count > 0`; no rate value exists for an empty ledger.
The counts are taken over the delivered and flagged lists of the manager. -/
def approval_rate (valid_count flagged_count : Nat) : Option ℚ :=
  let total_count := valid_count + flagged_count
  if total_count > 0 then
    some (((valid_count : ℚ) / (total_count : ℚ)) * 100)
  else
    none

end Basic

/-- Status invariant of the ledger: every delivered message carries status
`VALID` and every flagged one status `INVALID`. -/
def Multimodel.statusInv (s : Multimodel.ChatState) : Prop :=
  (∀ m ∈ s.messages, m.status = MessageStatus.valid)
  ∧ (∀ m ∈ s.flagged_messages, m.status = MessageStatus.invalid)

/-- A concrete session: three accepted submissions (one of each type) and
one rejected one. -/
def exampleSubs : List Multimodel.Submission :=
  [ { sender := "alice", content := "hello", message_type := MessageType.text,
      validation_result := { is_valid := true, reason := "ok" } },
    { sender := "bob", content := "a cat photo", message_type := MessageType.image,
      validation_result := { is_valid := true, reason := "ok" } },
    { sender := "carol", content := "voice note", message_type := MessageType.audio,
      validation_result := { is_valid := true, reason := "ok" } },
    { sender := "dave", content := "buy now!!!", message_type := MessageType.text,
      validation_result := { is_valid := false, reason := "violates rules" } } ]

/-! ## Helper lemmas -/

/-- A string with a non-empty left part stays non-empty under append. -/
theorem append_ne_empty_left (a b : String) (ha : a.length ≠ 0) :
    a ++ b ≠ "" := by
  intro heq
  have hlen := congrArg String.length heq
  simp [String.length_append] at hlen
  exact ha hlen.1

/-- `add_message` preserves the status invariant. -/
theorem Multimodel.statusInv_add (s : Multimodel.ChatState)
    (sender content : String) (mt : MessageType) (vr : ValidationResult)
    (media : Option Multimodel.MediaContent) (now : Nat)
    (h : Multimodel.statusInv s) :
    Multimodel.statusInv
      (Multimodel.add_message s sender content mt vr media now).2 := by
  obtain ⟨h1, h2⟩ := h
  cases hv : vr.is_valid with
  | false =>
      simp_all [Multimodel.add_message, Multimodel.statusInv, hv]
      rintro m (hm | rfl)
      · exact h2 m hm
      · rfl
  | true =>
      simp_all [Multimodel.add_message, Multimodel.statusInv, hv]
      rintro m (hm | rfl)
      · exact h1 m hm
      · rfl

/-- Every state reached from the initial one by a sequence of
`add_message` calls satisfies the status invariant. -/
theorem Multimodel.statusInv_runSubs (subs : List Multimodel.Submission)
    (s : Multimodel.ChatState) (h : Multimodel.statusInv s) :
    Multimodel.statusInv (Multimodel.runSubs s subs) := by
  induction subs generalizing s with
  | nil => exact h
  | cons sub rest ih =>
      exact ih _ (Multimodel.statusInv_add s sub.sender sub.content
        sub.message_type sub.validation_result sub.media_content sub.now h)

/-- `add_message` grows the combined size of the two ledger views by
exactly one. -/
theorem Multimodel.add_message_lengths (s : Multimodel.ChatState)
    (sender content : String) (mt : MessageType) (vr : ValidationResult)
    (media : Option Multimodel.MediaContent) (now : Nat) :
    (Multimodel.add_message s sender content mt vr media now).2.messages.length
      + (Multimodel.add_message s sender content mt vr media now).2.flagged_messages.length
      = s.messages.length + s.flagged_messages.length + 1 := by
  cases hv : vr.is_valid <;> simp [Multimodel.add_message, hv] <;> omega

/-- A run of `n` submissions grows the combined ledger size by `n`. -/
theorem Multimodel.runSubs_lengths (subs : List Multimodel.Submission)
    (s : Multimodel.ChatState) :
    (Multimodel.runSubs s subs).messages.length
      + (Multimodel.runSubs s subs).flagged_messages.length
      = s.messages.length + s.flagged_messages.length + subs.length := by
  induction subs generalizing s with
  | nil => simp [Multimodel.runSubs]
  | cons sub rest ih =>
      have hadd := Multimodel.add_message_lengths s sub.sender sub.content
        sub.message_type sub.validation_result sub.media_content sub.now
      simp only [Multimodel.runSubs, List.length_cons]
      rw [ih ((Multimodel.add_message s sub.sender sub.content sub.message_type
        sub.validation_result sub.media_content sub.now).2)]
      omega

/-- The message produced by `add_message` lands in exactly one of the two
ledger views when the starting state satisfies the status invariant. -/
theorem Multimodel.add_message_exactly_one (s : Multimodel.ChatState)
    (sender content : String) (mt : MessageType) (vr : ValidationResult)
    (media : Option Multimodel.MediaContent) (now : Nat)
    (h : Multimodel.statusInv s) :
    ((Multimodel.add_message s sender content mt vr media now).1
        ∈ (Multimodel.add_message s sender content mt vr media now).2.messages
      ∧ (Multimodel.add_message s sender content mt vr media now).1
        ∉ (Multimodel.add_message s sender content mt vr media now).2.flagged_messages)
    ∨ ((Multimodel.add_message s sender content mt vr media now).1
        ∈ (Multimodel.add_message s sender content mt vr media now).2.flagged_messages
      ∧ (Multimodel.add_message s sender content mt vr media now).1
        ∉ (Multimodel.add_message s sender content mt vr media now).2.messages) := by
  obtain ⟨h1, h2⟩ := h
  cases hv : vr.is_valid with
  | true =>
      left
      constructor
      · simp [Multimodel.add_message, hv]
      · simp only [Multimodel.add_message, hv, if_true]
        intro hmem
        have := h2 _ hmem
        simp at this
  | false =>
      right
      constructor
      · simp [Multimodel.add_message, hv]
      · simp only [Multimodel.add_message, hv, if_false]
        intro hmem
        have := h1 _ hmem
        simp at this

/-! ## Claim theorems -/

/-- C1: with no judge client configured, both validators return
`is_valid = true` with `confidence = 0` for every content and every rule
set, and — because this check precedes the empty-rules check — the
no-capability result (confidence 0) is returned even for empty rules,
taking precedence over the empty-rules result (confidence 1). -/
theorem validate_no_client_fail_open (judge : JudgeOutcome)
    (content rules content_type message : String) :
    Multimodel.validate_text_content false judge content rules content_type
      = { is_valid := true
          reason := "No API key configured - defaulting to allow"
          confidence := 0 }
    ∧ Basic.validate_message false judge message rules
      = { is_valid := true
          reason := "No API key configured - defaulting to allow"
          confidence := 0 }
    ∧ (Multimodel.validate_text_content false judge content "" content_type).confidence = 0 := by
  exact ⟨rfl, rfl, rfl⟩

/-- C3 counterexample: with a judge configured and empty rules, the
multimodal validator's reason is the fixed string
`"No rules specified - all content allowed"`, not `"no rules specified"`
as the claim states. -/
theorem empty_rules_reason_literal :
    (Multimodel.validate_text_content true (JudgeOutcome.ok {}) "hello" "" "message").reason
      = "No rules specified - all content allowed"
    ∧ (Multimodel.validate_text_content true (JudgeOutcome.ok {}) "hello" "" "message").reason
      ≠ "no rules specified" := by
  exact ⟨rfl, by decide⟩

/-- C3 (amended): with a judge configured and a blank rule set, both
validators return `is_valid = true`, `confidence = 1` and a fixed reason
beginning "No rules specified" (`"... - all content allowed"` in the
multimodal validator, `"... - all messages allowed"` in the basic one),
for every content and independently of the judge outcome (no judge call is
consulted). -/
theorem empty_rules_fully_confident_allow (judge : JudgeOutcome)
    (content content_type message rules : String) (h : strip rules = "") :
    Multimodel.validate_text_content true judge content rules content_type
      = { is_valid := true
          reason := "No rules specified - all content allowed"
          confidence := 1 }
    ∧ Basic.validate_message true judge message rules
      = { is_valid := true
          reason := "No rules specified - all messages allowed"
          confidence := 1 } := by
  constructor <;>
    simp [Multimodel.validate_text_content, Basic.validate_message, h]

/-- C3 witness: the amended claim at the empty rule set and a parse-error
judge outcome. -/
theorem empty_rules_fully_confident_allow_witness :
    strip "" = ""
    ∧ Multimodel.validate_text_content true JudgeOutcome.parseError "hello" "" "message"
      = { is_valid := true
          reason := "No rules specified - all content allowed"
          confidence := 1 }
    ∧ Basic.validate_message true JudgeOutcome.parseError "hello" ""
      = { is_valid := true
          reason := "No rules specified - all messages allowed"
          confidence := 1 } := by
  have h := empty_rules_fully_confident_allow JudgeOutcome.parseError
    "hello" "message" "hello" "" rfl
  exact ⟨rfl, h.1, h.2⟩

/-- C10: when the judge call succeeds with a decoded JSON object, each of
the three fields is defaulted independently via `.get` — `valid` to
`true`, `reason` to `"No reason provided"`, `confidence` to `1/2` — so an
object missing all three fields yields confidence `1/2`, which differs
from the confidence `0` of the malformed-response result. -/
theorem missing_fields_defaulted (r : JudgeJson)
    (content rules content_type : String) (h : strip rules ≠ "") :
    Multimodel.validate_text_content true (JudgeOutcome.ok r) content rules content_type
      = { is_valid := r.valid.getD true
          reason := r.reason.getD "No reason provided"
          confidence := r.confidence.getD (1/2) }
    ∧ (Multimodel.validate_text_content true (JudgeOutcome.ok {}) content rules content_type).confidence
        = 1/2
    ∧ (Multimodel.validate_text_content true (JudgeOutcome.ok {}) content rules content_type).confidence
        ≠ (Multimodel.validate_text_content true JudgeOutcome.parseError content rules content_type).confidence := by
  refine ⟨?_, ?_, ?_⟩ <;> simp [Multimodel.validate_text_content, h]

/-- C10 witness: the field-defaulting behaviour at a concrete non-blank
rule set and the empty JSON object. -/
theorem missing_fields_defaulted_witness :
    strip "No spam" ≠ ""
    ∧ Multimodel.validate_text_content true (JudgeOutcome.ok {}) "hi" "No spam" "message"
      = { is_valid := true
          reason := "No reason provided"
          confidence := 1/2 }
    ∧ (Multimodel.validate_text_content true (JudgeOutcome.ok {}) "hi" "No spam" "message").confidence
        ≠ (Multimodel.validate_text_content true JudgeOutcome.parseError "hi" "No spam" "message").confidence := by
  have h := missing_fields_defaulted {} "hi" "No spam" "message" (by decide)
  exact ⟨by decide, h.1, h.2.2⟩

/-- C8 counterexample: a well-formed judge response whose `reason` field is
present but is the empty string is passed through verbatim, so the
returned `reason` is empty — the `.get` default applies only when the key
is absent. -/
theorem judge_empty_reason_passes_through :
    (Multimodel.validate_text_content true
      (JudgeOutcome.ok { valid := some true, reason := some "", confidence := some (9/10) })
      "hello" "No spam" "message").reason = "" := by
  decide

/-- C8 (amended): on every path the `reason` field is present, and it is
non-empty unless the judge's decoded response itself carries an explicitly
empty `reason` string; in particular all locally produced reasons and the
absent-field default are non-empty. -/
theorem reason_nonempty_unless_judge_empty (hasClient : Bool)
    (judge : JudgeOutcome) (content rules content_type : String)
    (h : ∀ r t, judge = JudgeOutcome.ok r → r.reason = some t → t ≠ "") :
    (Multimodel.validate_text_content hasClient judge content rules content_type).reason ≠ "" := by
  unfold Multimodel.validate_text_content
  cases hasClient with
  | false => simp
  | true =>
      by_cases hr : strip rules = ""
      · simp [hr]
      · simp only [hr, Bool.not_true, Bool.false_eq_true, if_false, if_true]
        cases judge with
        | ok r =>
            cases hrr : r.reason with
            | none => simp [hrr]
            | some t =>
                have := h r t rfl hrr
                simpa [hrr] using this
        | parseError => simp
        | callError e =>
            intro heq
            have hlen := congrArg String.length heq
            simp [String.length_append] at hlen
            exact absurd hlen.1 (by decide)

/-- C8 witness: the amended claim at a judge-call failure, where the
hypothesis on decoded responses holds vacuously. -/
theorem reason_nonempty_unless_judge_empty_witness :
    (∀ r t, JudgeOutcome.callError "boom" = JudgeOutcome.ok r → r.reason = some t → t ≠ "")
    ∧ (Multimodel.validate_text_content true (JudgeOutcome.callError "boom")
        "hi" "No spam" "message").reason ≠ "" := by
  constructor
  · intro r t h1 h2
    simp at h1
  · exact reason_nonempty_unless_judge_empty true (JudgeOutcome.callError "boom")
      "hi" "No spam" "message" (by intro r t h1 h2; simp at h1)

/-- C2: after any sequence of submissions from the fresh manager, the
delivered and flagged sequences are disjoint, their combined size equals
the number of submissions (no item is lost), and the message produced by
the next `add_message` is appended to exactly one of the two sequences. -/
theorem ledger_partition_exactly_one (subs : List Multimodel.Submission)
    (sub : Multimodel.Submission) :
    (∀ m, m ∈ (Multimodel.runSubs Multimodel.ChatState.init subs).messages →
        m ∉ (Multimodel.runSubs Multimodel.ChatState.init subs).flagged_messages)
    ∧ (Multimodel.runSubs Multimodel.ChatState.init subs).messages.length
        + (Multimodel.runSubs Multimodel.ChatState.init subs).flagged_messages.length
        = subs.length
    ∧ (((Multimodel.add_message (Multimodel.runSubs Multimodel.ChatState.init subs)
          sub.sender sub.content sub.message_type sub.validation_result
          sub.media_content sub.now).1
        ∈ (Multimodel.add_message (Multimodel.runSubs Multimodel.ChatState.init subs)
          sub.sender sub.content sub.message_type sub.validation_result
          sub.media_content sub.now).2.messages
       ∧ (Multimodel.add_message (Multimodel.runSubs Multimodel.ChatState.init subs)
          sub.sender sub.content sub.message_type sub.validation_result
          sub.media_content sub.now).1
        ∉ (Multimodel.add_message (Multimodel.runSubs Multimodel.ChatState.init subs)
          sub.sender sub.content sub.message_type sub.validation_result
          sub.media_content sub.now).2.flagged_messages)
      ∨ ((Multimodel.add_message (Multimodel.runSubs Multimodel.ChatState.init subs)
          sub.sender sub.content sub.message_type sub.validation_result
          sub.media_content sub.now).1
        ∈ (Multimodel.add_message (Multimodel.runSubs Multimodel.ChatState.init subs)
          sub.sender sub.content sub.message_type sub.validation_result
          sub.media_content sub.now).2.flagged_messages
       ∧ (Multimodel.add_message (Multimodel.runSubs Multimodel.ChatState.init subs)
          sub.sender sub.content sub.message_type sub.validation_result
          sub.media_content sub.now).1
        ∉ (Multimodel.add_message (Multimodel.runSubs Multimodel.ChatState.init subs)
          sub.sender sub.content sub.message_type sub.validation_result
          sub.media_content sub.now).2.messages)) := by
  have hinit : Multimodel.statusInv Multimodel.ChatState.init :=
    ⟨by simp [Multimodel.ChatState.init], by simp [Multimodel.ChatState.init]⟩
  have hinv := Multimodel.statusInv_runSubs subs Multimodel.ChatState.init hinit
  obtain ⟨h1, h2⟩ := hinv
  refine ⟨?_, ?_, ?_⟩
  · intro m hm hmf
    have hv := h1 m hm
    have hf := h2 m hmf
    rw [hv] at hf
    exact absurd hf (by decide)
  · have := Multimodel.runSubs_lengths subs Multimodel.ChatState.init
    simpa [Multimodel.ChatState.init] using this
  · exact Multimodel.add_message_exactly_one _ sub.sender sub.content
      sub.message_type sub.validation_result sub.media_content sub.now ⟨h1, h2⟩

/-- C4 counterexample: the v1.6 engine fail-closes on a malformed judge
response — a response that is not exactly the word VALID (after strip and
upper-case) causes the message to be replaced by "Invalid Message"
(rejected), not accepted; only the exact word VALID passes the message
through. -/
theorem textui_malformed_response_rejects :
    TextUI.validate_message ["Sure, that looks valid to me"] "hello team"
      = "Invalid Message"
    ∧ TextUI.validate_message ["Sure, that looks valid to me"] "hello team"
      ≠ "hello team"
    ∧ TextUI.validate_message ["VALID"] "hello team" = "hello team" := by
  exact ⟨by decide, by decide, by decide⟩

/-- C4 (amended): in the two JSON-based validators (v1.1 and v1.2), a
malformed judge response or a failed judge call yields `is_valid = true`,
`confidence = 0` and a reason describing the failure, without raising;
the v1.6 streaming engine instead rejects on any judge response that is
not exactly VALID (its call failures are not caught at all). -/
theorem degraded_judge_fail_open (e content rules content_type message user_message : String)
    (response_chunks : List String)
    (h : strip rules ≠ "") (h2 : TextUI.full_response response_chunks ≠ "VALID") :
    Multimodel.validate_text_content true JudgeOutcome.parseError content rules content_type
      = { is_valid := true
          reason := "Failed to parse validation response"
          confidence := 0 }
    ∧ Multimodel.validate_text_content true (JudgeOutcome.callError e) content rules content_type
      = { is_valid := true
          reason := "Validation error: " ++ e
          confidence := 0 }
    ∧ Basic.validate_message true JudgeOutcome.parseError message rules
      = { is_valid := true
          reason := "Failed to parse validation response"
          confidence := 0 }
    ∧ Basic.validate_message true (JudgeOutcome.callError e) message rules
      = { is_valid := true
          reason := "Validation error: " ++ e
          confidence := 0 }
    ∧ TextUI.validate_message response_chunks user_message = "Invalid Message" := by
  refine ⟨?_, ?_, ?_, ?_, ?_⟩
  · simp [Multimodel.validate_text_content, h]
  · simp [Multimodel.validate_text_content, h]
  · simp [Basic.validate_message, h]
  · simp [Basic.validate_message, h]
  · simp [TextUI.validate_message, h2]

/-- C4 witness: the amended claim at a concrete non-blank rule set, a
concrete call-failure detail and a concrete malformed streamed response. -/
theorem degraded_judge_fail_open_witness :
    strip "No spam" ≠ ""
    ∧ TextUI.full_response ["Sure, that looks valid to me"] ≠ "VALID"
    ∧ Multimodel.validate_text_content true JudgeOutcome.parseError "hi" "No spam" "message"
      = { is_valid := true
          reason := "Failed to parse validation response"
          confidence := 0 }
    ∧ Multimodel.validate_text_content true (JudgeOutcome.callError "timeout") "hi" "No spam" "message"
      = { is_valid := true
          reason := "Validation error: " ++ "timeout"
          confidence := 0 }
    ∧ Basic.validate_message true JudgeOutcome.parseError "hi" "No spam"
      = { is_valid := true
          reason := "Failed to parse validation response"
          confidence := 0 }
    ∧ Basic.validate_message true (JudgeOutcome.callError "timeout") "hi" "No spam"
      = { is_valid := true
          reason := "Validation error: " ++ "timeout"
          confidence := 0 }
    ∧ TextUI.validate_message ["Sure, that looks valid to me"] "hello team"
      = "Invalid Message" := by
  have h := degraded_judge_fail_open "timeout" "hi" "No spam" "message" "hi"
    "hello team" ["Sure, that looks valid to me"] (by decide) (by decide)
  exact ⟨by decide, by decide, h.1, h.2.1, h.2.2.1, h.2.2.2.1, h.2.2.2.2⟩

/-- C5: `clear_chat` returns exactly the freshly initialised state — both
sequences empty and the counter back to zero, in the one operation — and
the first message added after a clear is assigned the initial id
`"msg_1"` again. -/
theorem clear_chat_atomic_reset (s : Multimodel.ChatState)
    (sender content : String) (message_type : MessageType)
    (vr : ValidationResult) (media : Option Multimodel.MediaContent) (now : Nat) :
    Multimodel.clear_chat s = Multimodel.ChatState.init
    ∧ (Multimodel.clear_chat s).messages = []
    ∧ (Multimodel.clear_chat s).flagged_messages = []
    ∧ (Multimodel.add_message (Multimodel.clear_chat s) sender content
        message_type vr media now).1.id = "msg_1"
    ∧ (Multimodel.add_message (Multimodel.clear_chat s) sender content
        message_type vr media now).1.id
      = (Multimodel.add_message Multimodel.ChatState.init sender content
        message_type vr media now).1.id := by
  refine ⟨rfl, rfl, rfl, ?_, rfl⟩
  cases hv : vr.is_valid <;>
    simp [Multimodel.add_message, Multimodel.clear_chat, hv] <;> decide

/-- C6: a failure of the external captioning/transcription capability is
captured and becomes the surrogate text itself, prefixed with an error
marker, and `process_media_content` then validates exactly that error text
as content — the failure is judged, not dropped. -/
theorem normalizer_failure_becomes_content (e rules : String) (judge : JudgeOutcome) :
    Multimodel.process_image true (MediaOutcome.err e) = "Failed to process image: " ++ e
    ∧ Multimodel.process_audio true (MediaOutcome.err e) = "Failed to process audio: " ++ e
    ∧ Multimodel.process_media_content true true MessageType.image (MediaOutcome.err e) judge rules
      = ((Multimodel.validate_text_content true judge
            ("Failed to process image: " ++ e) rules "image caption").is_valid,
         "Failed to process image: " ++ e)
    ∧ Multimodel.process_media_content true true MessageType.audio (MediaOutcome.err e) judge rules
      = ((Multimodel.validate_text_content true judge
            ("Failed to process audio: " ++ e) rules "audio transcript").is_valid,
         "Failed to process audio: " ++ e) := by
  exact ⟨rfl, rfl, rfl, rfl⟩

/-- C7 counterexample: the sentinel the normalizer substitutes for an
empty transcript is the string "No speech detected in audio", not
"no speech detected" as the claim states. -/
theorem audio_sentinel_exact_string :
    Multimodel.process_audio true (MediaOutcome.ok "") = "No speech detected in audio"
    ∧ Multimodel.process_audio true (MediaOutcome.ok "") ≠ "no speech detected" := by
  exact ⟨rfl, by decide⟩

/-- C7 (amended): a transcription that strips to the empty string is
replaced by the sentinel "No speech detected in audio", that sentinel is
the text handed to validation by `process_media_content`, and the audio
normalizer never returns the empty string on any path. -/
theorem empty_transcript_sentinel (t rules : String) (judge : JudgeOutcome)
    (h : strip t = "") :
    Multimodel.process_audio true (MediaOutcome.ok t) = "No speech detected in audio"
    ∧ Multimodel.process_media_content true true MessageType.audio (MediaOutcome.ok t) judge rules
      = ((Multimodel.validate_text_content true judge
            "No speech detected in audio" rules "audio transcript").is_valid,
         "No speech detected in audio")
    ∧ ∀ (hasClient : Bool) (outcome : MediaOutcome),
        Multimodel.process_audio hasClient outcome ≠ "" := by
  have hpa : Multimodel.process_audio true (MediaOutcome.ok t)
      = "No speech detected in audio" := by
    simp [Multimodel.process_audio, h]
  refine ⟨hpa, ?_, ?_⟩
  · simp [Multimodel.process_media_content, hpa]
  · intro hasClient outcome
    cases hasClient with
    | false => simp [Multimodel.process_audio]
    | true =>
        cases outcome with
        | ok u =>
            by_cases hu : strip u = "" <;> simp [Multimodel.process_audio, hu]
        | err e =>
            simp only [Multimodel.process_audio]
            exact append_ne_empty_left _ _ (by decide)

/-- C7 witness: the amended claim at the literally empty transcript. -/
theorem empty_transcript_sentinel_witness :
    strip "" = ""
    ∧ Multimodel.process_audio true (MediaOutcome.ok "") = "No speech detected in audio"
    ∧ Multimodel.process_media_content true true MessageType.audio (MediaOutcome.ok "")
        JudgeOutcome.parseError "No spam"
      = ((Multimodel.validate_text_content true JudgeOutcome.parseError
            "No speech detected in audio" "No spam" "audio transcript").is_valid,
         "No speech detected in audio") := by
  have h := empty_transcript_sentinel "" "No spam" JudgeOutcome.parseError rfl
  exact ⟨rfl, h.1, h.2.1⟩

/-- C9 counterexample: on the empty ledger no approval rate is computed at
all (the stats block is guarded by `total_count > 0`), rather than the
rate being defined as 0 as the claim states. -/
theorem approval_rate_empty_undefined :
    Multimodel.approval_rate Multimodel.ChatState.init = none
    ∧ Basic.approval_rate 0 0 = none := by
  exact ⟨rfl, rfl⟩

/-- C9 (amended): whenever the ledger is non-empty the approval rate is
computed as `delivered / (delivered + flagged) * 100`; after three
delivered items and one flagged item both the v1.1 and the v1.2 stats
blocks yield exactly 75. -/
theorem approval_rate_formula (valid_count flagged_count : Nat)
    (h : 0 < valid_count + flagged_count) :
    Basic.approval_rate valid_count flagged_count
      = some (((valid_count : ℚ) / (((valid_count + flagged_count : ℕ)) : ℚ)) * 100)
    ∧ Multimodel.approval_rate (Multimodel.runSubs Multimodel.ChatState.init exampleSubs)
      = some 75
    ∧ Basic.approval_rate 3 1 = some 75 := by
  refine ⟨?_, ?_, ?_⟩
  · simp [Basic.approval_rate, h]
  · have ht : (List.filter (fun m => m.message_type = MessageType.text)
        (Multimodel.runSubs Multimodel.ChatState.init exampleSubs).messages).length = 1 := by
      decide
    have hi : (List.filter (fun m => m.message_type = MessageType.image)
        (Multimodel.runSubs Multimodel.ChatState.init exampleSubs).messages).length = 1 := by
      decide
    have ha : (List.filter (fun m => m.message_type = MessageType.audio)
        (Multimodel.runSubs Multimodel.ChatState.init exampleSubs).messages).length = 1 := by
      decide
    have hf : (Multimodel.runSubs Multimodel.ChatState.init exampleSubs).flagged_messages.length
        = 1 := by decide
    simp only [Multimodel.approval_rate, ht, hi, ha, hf]
    norm_num
  · norm_num [Basic.approval_rate]

/-- C9 witness: the amended claim at three delivered and one flagged
item. -/
theorem approval_rate_formula_witness :
    0 < 3 + 1
    ∧ Basic.approval_rate 3 1 = some 75
    ∧ Multimodel.approval_rate (Multimodel.runSubs Multimodel.ChatState.init exampleSubs)
      = some 75 := by
  have h := approval_rate_formula 3 1 (by decide)
  exact ⟨by decide, h.2.2, h.2.1⟩

end ConvoEase
